import Mathlib

/-!
Verification of the sysinfo command-line tool (src/src/main.rs).

The program selects one `get_system_info` variant per target platform
(windows / linux / macos, with a fallback for every other platform) and
prints a sequence of lines.  We embed the program shallowly:

* the results of the fallible system queries (file reads, external
  commands, API calls) are an explicit environment `Env`, one `Option`
  per query, `none` standing for the failing query;
* each `println!` of the source becomes one element of a `List Line`;
  a `Line` keeps the structure the source gives it (header banner,
  `Name: value` fact line, raw fact line, JSON key/value entry) and
  `Line.render` recovers the exact printed text;
* helpers (`rustLines`, `rustTrim`, `listStartsWith`) are structural
  translations of the Rust standard-library functions the source calls
  (`str::lines`, `str::trim`, `str::starts_with`).
-/

/-- Output format of the tool, from the `OutputFormat` enum of the source. -/
inductive OutputFormat where
  | Text
  | Json
deriving DecidableEq

/-- Parsed command-line arguments, from the `Args` struct of the source. -/
structure Args where
  verbose : Bool
  format : OutputFormat
deriving DecidableEq

/-- The platform the binary was compiled for; `other` is every platform
that is not windows, linux or macos (the `cfg` fallback of the source). -/
inductive Platform where
  | windows
  | linux
  | macos
  | other
deriving DecidableEq

/-- The `SYSTEM_INFO` structure filled by the Windows `GetSystemInfo`
call, restricted to the numeric fields the program prints. -/
structure WinSystemInfo where
  w_processor_architecture : Nat
  dw_page_size : Nat
  dw_number_of_processors : Nat
  dw_processor_type : Nat
  dw_allocation_granularity : Nat
  w_processor_level : Nat
  w_processor_revision : Nat
deriving DecidableEq

/-- Results of every fallible system query the program can make, fixed
for one run.  `none` means the query fails (unreadable file, external
tool failure, API failure); `some s` means it succeeds with content `s`. -/
structure Env where
  /-- Windows `GetSystemInfo` output (the call cannot fail in the source). -/
  sys_info : WinSystemInfo
  /-- Windows `GetComputerNameW`: the decoded name on success. -/
  computer_name : Option String
  /-- Linux read of /proc/cpuinfo. -/
  cpuinfo : Option String
  /-- Linux read of /proc/meminfo. -/
  meminfo : Option String
  /-- Linux read of /etc/hostname. -/
  hostname : Option String
  /-- macOS `sysctl -n hw.ncpu` stdout, decoded as UTF-8. -/
  ncpu : Option String
  /-- macOS `sysctl -n hw.memsize` stdout, decoded as UTF-8. -/
  memsize : Option String
  /-- macOS `sysctl -n machdep.cpu.brand_string` stdout, decoded as UTF-8. -/
  cpu_brand : Option String
  /-- `env::consts::OS`. -/
  os : String
  /-- `env::consts::ARCH`. -/
  arch : String
deriving DecidableEq

/-- One printed line, keeping the structure the source gives it.
`header` is banner or informational text, `textFact` a `Name: value`
fact line, `rawFact` a fact printed verbatim (a /proc/meminfo line, or
the fallback's unsupported-platform fact), `jsonEntry` one key/value
entry of the hand-assembled JSON object (`comma` records a trailing
comma), `jsonOpen`/`jsonClose` the braces of that object. -/
inductive Line where
  | header (s : String)
  | textFact (name : String) (value : String)
  | rawFact (s : String)
  | jsonOpen
  | jsonEntry (key : String) (value : String) (comma : Bool)
  | jsonClose
deriving DecidableEq

/-- The exact text a `Line` is printed as. -/
def Line.render : Line → String
  | .header s => s
  | .textFact n v => n ++ ": " ++ v
  | .rawFact s => s
  | .jsonOpen => "\x7b"
  | .jsonEntry k v c => "  \"" ++ k ++ "\": " ++ v ++ (if c then "," else "")
  | .jsonClose => "\x7d"

/-- A line that carries a fact (as opposed to a banner or a brace). -/
def Line.isFact : Line → Bool
  | .textFact _ _ => true
  | .rawFact _ => true
  | .jsonEntry _ _ _ => true
  | _ => false

/-- A fact printed verbatim (used only for /proc/meminfo lines and the
fallback's message). -/
def Line.isRawFact : Line → Bool
  | .rawFact _ => true
  | _ => false

/-- The name of a named fact: the label of a `Name: value` text line or
the key of a JSON entry. -/
def Line.factKey : Line → Option String
  | .textFact n _ => some n
  | .jsonEntry k _ _ => some k
  | _ => none

/-- The fact lines of an output. -/
def factsOf (lines : List Line) : List Line :=
  lines.filter Line.isFact

/-- The names of the named facts of an output. -/
def factNames (lines : List Line) : List String :=
  lines.filterMap Line.factKey

/-- Rust `str::lines`, splitting phase: cut the character list at every
newline, stripping one carriage return from the end of a chunk that was
terminated by a newline.  The accumulator holds the current chunk
reversed. -/
def rustLinesAux : List Char → List Char → List (List Char)
  | [], acc => [acc.reverse]
  | '\n' :: rest, acc =>
      (match acc with
       | '\r' :: acc2 => acc2.reverse
       | _ => acc.reverse) :: rustLinesAux rest []
  | c :: rest, acc => rustLinesAux rest (c :: acc)

/-- Rust `str::lines` on a string: the chunks between newlines, without a
final empty chunk (a terminal newline does not open a last empty line). -/
def rustLines (s : String) : List String :=
  let parts := rustLinesAux s.data []
  let parts :=
    match parts.getLast? with
    | some [] => parts.dropLast
    | _ => parts
  parts.map String.mk

/-- Rust `char::is_whitespace`: the Unicode White_Space characters. -/
def rustIsWhitespace (c : Char) : Bool :=
  c == ' ' || c == '\t' || c == '\n' || c == '\r' ||
  c == '\x0b' || c == '\x0c' || c == '\u0085' || c == ' ' ||
  c == ' ' || c == ' ' || c == ' ' || c == ' ' ||
  c == ' ' || c == ' ' || c == ' ' || c == ' ' ||
  c == ' ' || c == ' ' || c == ' ' || c == ' ' ||
  c == ' ' || c == ' ' || c == ' ' || c == ' ' ||
  c == '　'

/-- Rust `str::trim`: drop Unicode whitespace from both ends. -/
def rustTrim (s : String) : String :=
  String.mk (((s.data.dropWhile rustIsWhitespace).reverse.dropWhile
    rustIsWhitespace).reverse)

/-- Rust `str::starts_with` on character lists. -/
def listStartsWith : List Char → List Char → Bool
  | _, [] => true
  | [], _ :: _ => false
  | c :: cs, p :: ps => c == p && listStartsWith cs ps

/-- The processor count the linux variant computes from /proc/cpuinfo:
the number of lines that start with the string "processor"
(`contents.lines().filter(starts_with "processor").count()`). -/
def processor_count (contents : String) : Nat :=
  ((rustLines contents).filter
    (fun line => listStartsWith line.data ("processor".data))).length

/-- The `OutputFormat::Json` branch of the windows `get_system_info`
variant. -/
def windowsJson (env : Env) : List Line :=
  [Line.jsonOpen,
   Line.jsonEntry "platform" "\"windows\"" true,
   Line.jsonEntry "processors" (toString env.sys_info.dw_number_of_processors) true,
   Line.jsonEntry "page_size" (toString env.sys_info.dw_page_size) true,
   Line.jsonEntry "architecture" (toString env.sys_info.w_processor_architecture) true,
   Line.jsonEntry "allocation_granularity"
     (toString env.sys_info.dw_allocation_granularity) true,
   Line.jsonEntry "computer_name"
     ("\"" ++ (match env.computer_name with
               | some n => n
               | none => "Unknown") ++ "\"") false,
   Line.jsonClose]

/-- The `OutputFormat::Text` branch of the windows `get_system_info`
variant. -/
def windowsText (env : Env) (verbose : Bool) : List Line :=
  [Line.header "=== System Information (via Windows API) ===",
   Line.textFact "Number of Processors" (toString env.sys_info.dw_number_of_processors),
   Line.textFact "Page Size" (toString env.sys_info.dw_page_size ++ " bytes"),
   Line.textFact "Processor Architecture" (toString env.sys_info.w_processor_architecture)]
  ++ (if verbose then
        [Line.textFact "Processor Type" (toString env.sys_info.dw_processor_type),
         Line.textFact "Processor Level" (toString env.sys_info.w_processor_level),
         Line.textFact "Processor Revision" (toString env.sys_info.w_processor_revision)]
      else [])
  ++ [Line.textFact "Allocation Granularity"
        (toString env.sys_info.dw_allocation_granularity ++ " bytes")]
  ++ (match env.computer_name with
      | some n => [Line.textFact "Computer Name" n]
      | none => [])

/-- The `OutputFormat::Json` branch of the linux `get_system_info`
variant. -/
def linuxJson (env : Env) : List Line :=
  [Line.jsonOpen,
   Line.jsonEntry "platform" "\"linux\"" true]
  ++ (match env.cpuinfo with
      | some contents =>
          [Line.jsonEntry "processors" (toString (processor_count contents)) true]
      | none => [])
  ++ (match env.hostname with
      | some h => [Line.jsonEntry "hostname" ("\"" ++ rustTrim h ++ "\"") false]
      | none => [])
  ++ [Line.jsonClose]

/-- The `OutputFormat::Text` branch of the linux `get_system_info`
variant: the first 3 lines of /proc/meminfo are shown, 10 when verbose. -/
def linuxText (env : Env) (verbose : Bool) : List Line :=
  [Line.header "=== System Information (Linux) ==="]
  ++ (match env.cpuinfo with
      | some contents =>
          [Line.textFact "Number of Processors" (toString (processor_count contents))]
      | none => [])
  ++ (match env.meminfo with
      | some contents =>
          ((rustLines contents).take (if verbose then 10 else 3)).map Line.rawFact
      | none => [])
  ++ (match env.hostname with
      | some h => [Line.textFact "Hostname" (rustTrim h)]
      | none => [])

/-- The `OutputFormat::Json` branch of the macos `get_system_info`
variant. -/
def macosJson (env : Env) : List Line :=
  [Line.jsonOpen,
   Line.jsonEntry "platform" "\"macos\"" true]
  ++ (match env.ncpu with
      | some s => [Line.jsonEntry "cpus" (rustTrim s) true]
      | none => [])
  ++ (match env.memsize with
      | some s => [Line.jsonEntry "memory_bytes" (rustTrim s) false]
      | none => [])
  ++ [Line.jsonClose]

/-- The `OutputFormat::Text` branch of the macos `get_system_info`
variant: the CPU brand string is queried only when verbose. -/
def macosText (env : Env) (verbose : Bool) : List Line :=
  [Line.header "=== System Information (macOS) ==="]
  ++ (match env.ncpu with
      | some s => [Line.textFact "Number of CPUs" (rustTrim s)]
      | none => [])
  ++ (match env.memsize with
      | some s => [Line.textFact "Memory Size" (rustTrim s ++ " bytes")]
      | none => [])
  ++ (if verbose then
        match env.cpu_brand with
        | some s => [Line.textFact "CPU" (rustTrim s)]
        | none => []
      else [])

/-- The platform-selected `get_system_info`, one variant per target
platform, and the fallback that prints "Unsupported platform". -/
def get_system_info (plat : Platform) (env : Env) (verbose : Bool)
    (format : OutputFormat) : List Line :=
  match plat with
  | .windows =>
      match format with
      | .Json => windowsJson env
      | .Text => windowsText env verbose
  | .linux =>
      match format with
      | .Json => linuxJson env
      | .Text => linuxText env verbose
  | .macos =>
      match format with
      | .Json => macosJson env
      | .Text => macosText env verbose
  | .other => [Line.rawFact "Unsupported platform"]

/-- The three banner lines `main` prints before the facts in Text format. -/
def mainPreamble (env : Env) : List Line :=
  [Line.header "System Info Tool - Cross-platform CLI",
   Line.header ("Built for: " ++ env.os ++ " (" ++ env.arch ++ ")"),
   Line.header ""]

/-- The closing lines `main` prints in Text format when verbose. -/
def mainFooter : List Line :=
  [Line.header "",
   Line.header "This tool uses platform-specific system libraries:",
   Line.header "- Windows: kernel32.dll (Windows API)",
   Line.header "- Linux: /proc filesystem",
   Line.header "- macOS: sysctl command"]

/-- Everything `main` prints: the Text preamble, the platform variant's
output, and the verbose Text footer. -/
def mainLines (plat : Platform) (env : Env) (args : Args) : List Line :=
  (match args.format with
   | .Text => mainPreamble env
   | .Json => [])
  ++ get_system_info plat env args.verbose args.format
  ++ (match args.format, args.verbose with
      | .Text, true => mainFooter
      | _, _ => [])

/-- The full text `main` writes to standard output. -/
def mainOutput (plat : Platform) (env : Env) (args : Args) : String :=
  String.intercalate "\n" ((mainLines plat env args).map Line.render)

/-- The whole run of the program after argument parsing.  `main` of the
source returns unit and never calls an exiting or aborting function, so
the embedding has no error constructor to return: every run ends in
`Except.ok`. -/
def runMain (plat : Platform) (env : Env) (args : Args) :
    Except Nat (List Line) :=
  Except.ok (mainLines plat env args)

/-- The process exit code of a finished run: 0 for a normal return of
`main`, the carried code for an error exit. -/
def exitCode : Except Nat (List Line) → Nat
  | .ok _ => 0
  | .error c => c

/-- Model of the clap derive declaration on `Args` in the source:
`#[arg(short, long, value_enum, default_value_t = OutputFormat::Text)]`.
`value_enum` on `OutputFormat` makes the recognized value strings
exactly "text" and "json" (the kebab-cased variant names), and
`default_value_t` makes an absent flag parse as `OutputFormat::Text`.
The input is the value given to --format / -f, `none` when the flag is
absent; the result is `none` when clap rejects the value. -/
def parseFormatFlag : Option String → Option OutputFormat
  | none => some OutputFormat.Text
  | some s =>
      if s = "text" then some OutputFormat.Text
      else if s = "json" then some OutputFormat.Json
      else none

/-! ## Sample environments used as concrete inputs -/

/-- A sample Windows system-information record. -/
def sysInfoSample : WinSystemInfo :=
  ⟨9, 4096, 8, 8664, 65536, 6, 513⟩

/-- An environment where every fallible query fails. -/
def envAllFail : Env :=
  ⟨sysInfoSample, none, none, none, none, none, none, none, "linux", "x86_64"⟩

/-- A sample /proc/cpuinfo content with two processor entries. -/
def cpuinfoSample : String :=
  "processor\t: 0\nmodel name\t: m\nprocessor\t: 1\n"

/-- An environment where every query succeeds. -/
def envAllOk : Env :=
  ⟨sysInfoSample, some "HOST", some cpuinfoSample,
   some "MemTotal: 1 kB\nMemFree: 2 kB\nBuffers: 3 kB\nCached: 4 kB\n",
   some "myhost\n", some "8\n", some "1024\n", some "FakeCPU @ 2GHz\n",
   "linux", "x86_64"⟩

/-- An environment where only the /proc/meminfo read succeeds, with empty
contents. -/
def envMemEmpty : Env :=
  ⟨sysInfoSample, none, none, some "", none, none, none, none,
   "linux", "x86_64"⟩

/-! ## Claim theorems -/

/-- C3: on any platform with no defined collector variant, `get_system_info`
produces exactly one fact, whose value is the string "Unsupported
platform", for every combination of verbose and format. -/
theorem unsupported_platform_single_fact (env : Env) (v : Bool)
    (fmt : OutputFormat) :
    factsOf (get_system_info Platform.other env v fmt)
      = [Line.rawFact "Unsupported platform"] :=
  rfl

/-- C4: the program exits with code 0 for every platform, every argument
combination and every outcome of the underlying queries; the embedded
run has no error constructor, `runMain` always returns `Except.ok`. -/
theorem sysinfo_exit_code_zero (plat : Platform) (env : Env) (args : Args) :
    runMain plat env args = Except.ok (mainLines plat env args) ∧
    exitCode (runMain plat env args) = 0 :=
  ⟨rfl, rfl⟩

/-- C8: an absent --format flag parses as the Text default, and the
recognized values of the flag are exactly "text" and "json". -/
theorem format_flag_default_and_values :
    parseFormatFlag none = some OutputFormat.Text ∧
    parseFormatFlag (some "text") = some OutputFormat.Text ∧
    parseFormatFlag (some "json") = some OutputFormat.Json ∧
    ∀ s : String, (parseFormatFlag (some s)).isSome = true ↔
      (s = "text" ∨ s = "json") := by
  refine ⟨rfl, rfl, rfl, fun s => ?_⟩
  by_cases h1 : s = "text"
  · simp [parseFormatFlag, h1]
  · by_cases h2 : s = "json" <;> simp [parseFormatFlag, h1, h2]

/-- C9: with Json format the whole output is independent of the verbose
flag, on every platform variant: both the line sequence and the rendered
text coincide for verbose=true and verbose=false. -/
theorem json_output_verbose_independent (plat : Platform) (env : Env) :
    mainLines plat env ⟨true, OutputFormat.Json⟩
      = mainLines plat env ⟨false, OutputFormat.Json⟩ ∧
    mainOutput plat env ⟨true, OutputFormat.Json⟩
      = mainOutput plat env ⟨false, OutputFormat.Json⟩ := by
  cases plat <;> exact ⟨rfl, rfl⟩

/-! ## Helper lemmas -/

/-- Every line built from a raw fact is a fact line. -/
theorem filter_isFact_map_rawFact (l : List String) :
    (l.map Line.rawFact).filter Line.isFact = l.map Line.rawFact := by
  induction l with
  | nil => rfl
  | cons x xs ih => simp [List.filter_cons, Line.isFact, ih]

/-- Taking 3 elements gives a sublist of taking 10. -/
theorem take_three_sublist_take_ten {α : Type} (l : List α) :
    List.Sublist (l.take 3) (l.take 10) := by
  have h : l.take 3 = (l.take 10).take 3 := by
    rw [List.take_take]
    congr 1
  rw [h]
  exact List.take_sublist 3 (l.take 10)

/-- A filtered take of raw-fact lines keeps every line. -/
theorem filter_isFact_take_map_rawFact (n : Nat) (l : List String) :
    ((l.map Line.rawFact).take n).filter Line.isFact
      = (l.map Line.rawFact).take n := by
  rw [← List.map_take]
  exact filter_isFact_map_rawFact _

/-- C5: in Text format, each of the three platform variants renders one
line per fact plus exactly one header line, so the line count is the
fact count plus one. -/
theorem text_render_line_count (env : Env) (v : Bool) :
    (get_system_info Platform.windows env v OutputFormat.Text).length
      = (factsOf (get_system_info Platform.windows env v OutputFormat.Text)).length + 1 ∧
    (get_system_info Platform.linux env v OutputFormat.Text).length
      = (factsOf (get_system_info Platform.linux env v OutputFormat.Text)).length + 1 ∧
    (get_system_info Platform.macos env v OutputFormat.Text).length
      = (factsOf (get_system_info Platform.macos env v OutputFormat.Text)).length + 1 := by
  obtain ⟨si, cn, ci, mi, hn, nc, ms, cb, osn, ar⟩ := env
  refine ⟨?_, ?_, ?_⟩
  · cases v <;> cases cn <;>
      simp [get_system_info, windowsText, factsOf, Line.isFact,
        List.filter_append, List.filter_cons]
  · cases v <;> cases ci <;> cases mi <;> cases hn <;>
      simp [get_system_info, linuxText, factsOf, Line.isFact,
        List.filter_append, List.filter_cons, filter_isFact_map_rawFact,
        filter_isFact_take_map_rawFact]
  · cases v <;> cases nc <;> cases ms <;> cases cb <;>
      simp [get_system_info, macosText, factsOf, Line.isFact,
        List.filter_append, List.filter_cons]

/-- C2: for every platform variant and every format, holding the query
results fixed, every fact emitted at verbose=false is also emitted at
verbose=true: toggling verbose on only adds facts. -/
theorem verbose_facts_monotone (plat : Platform) (env : Env)
    (fmt : OutputFormat) :
    ∀ f ∈ factsOf (get_system_info plat env false fmt),
      f ∈ factsOf (get_system_info plat env true fmt) := by
  have hsub : List.Sublist (get_system_info plat env false fmt)
      (get_system_info plat env true fmt) := by
    obtain ⟨si, cn, ci, mi, hn, nc, ms, cb, osn, ar⟩ := env
    cases plat with
    | windows =>
      cases fmt with
      | Json => exact List.Sublist.refl _
      | Text =>
        simp [get_system_info, windowsText]
        exact List.Sublist.cons _ (List.Sublist.cons _
          (List.Sublist.cons _ (List.Sublist.refl _)))
    | linux =>
      cases fmt with
      | Json => exact List.Sublist.refl _
      | Text =>
        cases ci <;> cases mi <;> simp [get_system_info, linuxText] <;>
          exact take_three_sublist_take_ten _
    | macos =>
      cases fmt with
      | Json => exact List.Sublist.refl _
      | Text =>
        cases nc <;> cases ms <;> simp [get_system_info, macosText]
    | other => exact List.Sublist.refl _
  intro f hf
  exact (List.Sublist.filter Line.isFact hsub).subset hf

/-- Witness for the verbose monotonicity: a concrete fact emitted at
verbose=false on linux in Text format is also emitted at verbose=true. -/
theorem verbose_facts_monotone_witness :
    Line.textFact "Hostname" (rustTrim "myhost\n")
      ∈ factsOf (get_system_info Platform.linux envAllOk true OutputFormat.Text) :=
  verbose_facts_monotone Platform.linux envAllOk OutputFormat.Text
    (Line.textFact "Hostname" (rustTrim "myhost\n")) (by decide)

/-- The key of a named fact line of an output is among the output's fact
names. -/
theorem factKey_mem_factNames {lines : List Line} {l : Line}
    (hl : l ∈ lines) {k : String} (hk : l.factKey = some k) :
    k ∈ factNames lines := by
  show k ∈ lines.filterMap Line.factKey
  exact List.mem_filterMap.mpr ⟨l, hl, hk⟩

/-- C6: in Json format the emitted object names every collected fact
exactly once: the key list has no duplicate, and the key of every JSON
entry of the output occurs exactly once in it. -/
theorem json_fact_names_unique (plat : Platform) (env : Env) (v : Bool) :
    (factNames (get_system_info plat env v OutputFormat.Json)).Nodup ∧
    ∀ l ∈ get_system_info plat env v OutputFormat.Json,
      ∀ k val : String, ∀ c : Bool, l = Line.jsonEntry k val c →
        (factNames (get_system_info plat env v OutputFormat.Json)).count k
          = 1 := by
  have hnd :
      (factNames (get_system_info plat env v OutputFormat.Json)).Nodup := by
    obtain ⟨si, cn, ci, mi, hn, nc, ms, cb, osn, ar⟩ := env
    cases plat with
    | windows =>
        simp only [get_system_info, windowsJson, factNames,
          List.filterMap_cons, Line.factKey]
        decide
    | linux =>
        cases ci <;> cases hn <;>
          simp [get_system_info, linuxJson, factNames, Line.factKey,
            List.filterMap_cons, List.filterMap_append]
    | macos =>
        cases nc <;> cases ms <;>
          simp [get_system_info, macosJson, factNames, Line.factKey,
            List.filterMap_cons, List.filterMap_append]
    | other =>
        simp [get_system_info, factNames, Line.factKey, List.filterMap_cons]
  refine ⟨hnd, fun l hl k val c hk => ?_⟩
  refine List.count_eq_one_of_mem hnd (factKey_mem_factNames hl ?_)
  rw [hk]
  rfl

/-- C10: on linux, whenever /proc/cpuinfo is read successfully, the
reported processor count is exactly the number of lines of the contents
that start with "processor", in both Text and Json formats. -/
theorem linux_processor_count_reported (env : Env) (v : Bool) (c : String)
    (h : env.cpuinfo = some c) :
    Line.textFact "Number of Processors" (toString (processor_count c))
      ∈ get_system_info Platform.linux env v OutputFormat.Text ∧
    Line.jsonEntry "processors" (toString (processor_count c)) true
      ∈ get_system_info Platform.linux env v OutputFormat.Json ∧
    processor_count c = ((rustLines c).filter
      (fun line => listStartsWith line.data ("processor".data))).length := by
  obtain ⟨si, cn, ci, mi, hn, nc, ms, cb, osn, ar⟩ := env
  subst h
  refine ⟨?_, ?_, rfl⟩
  · simp [get_system_info, linuxText]
  · simp [get_system_info, linuxJson]

/-- Witness for the linux processor count: a cpuinfo content with two
processor lines is reported as 2 processors. -/
theorem linux_processor_count_reported_witness :
    (Line.textFact "Number of Processors" (toString (processor_count cpuinfoSample))
      ∈ get_system_info Platform.linux envAllOk false OutputFormat.Text ∧
    Line.jsonEntry "processors" (toString (processor_count cpuinfoSample)) true
      ∈ get_system_info Platform.linux envAllOk false OutputFormat.Json ∧
    processor_count cpuinfoSample = ((rustLines cpuinfoSample).filter
      (fun line => listStartsWith line.data ("processor".data))).length) ∧
    processor_count cpuinfoSample = 2 :=
  ⟨linux_processor_count_reported envAllOk false cpuinfoSample rfl, by decide⟩

/-- Raw fact lines carry no fact name. -/
theorem factNames_map_rawFact (l : List String) :
    (l.map Line.rawFact).filterMap Line.factKey = [] := by
  induction l with
  | nil => rfl
  | cons x xs ih => simp [List.filterMap_cons, Line.factKey, ih]

/-- A take of raw fact lines carries no fact name. -/
theorem factNames_take_map_rawFact (n : Nat) (l : List String) :
    ((l.map Line.rawFact).take n).filterMap Line.factKey = [] := by
  rw [← List.map_take]
  exact factNames_map_rawFact _

/-- C1 counterexample: on windows in Json format a failing computer-name
query does not make the fact disappear; the computer_name fact is
emitted with the error-marker value "Unknown". -/
theorem computer_name_marker_counterexample :
    envAllFail.computer_name = none ∧
    Line.jsonEntry "computer_name" "\"Unknown\"" false
      ∈ get_system_info Platform.windows envAllFail false OutputFormat.Json ∧
    "computer_name" ∈ factNames
      (get_system_info Platform.windows envAllFail false OutputFormat.Json) := by
  refine ⟨rfl, ?_, ?_⟩ <;> decide

/-- C1 as amended: a failing fact query leaves its fact out of the output
and never aborts the run, with one exception: the windows variant in
Json format answers a failing computer-name query by emitting the
computer_name fact with the marker value "Unknown". -/
theorem failed_queries_omitted_except_windows_json (env : Env) (v : Bool)
    (fmt : OutputFormat) :
    (env.cpuinfo = none →
      "Number of Processors" ∉ factNames (get_system_info Platform.linux env v fmt) ∧
      "processors" ∉ factNames (get_system_info Platform.linux env v fmt)) ∧
    (env.meminfo = none →
      (get_system_info Platform.linux env v fmt).filter Line.isRawFact = []) ∧
    (env.hostname = none →
      "Hostname" ∉ factNames (get_system_info Platform.linux env v fmt) ∧
      "hostname" ∉ factNames (get_system_info Platform.linux env v fmt)) ∧
    (env.ncpu = none →
      "Number of CPUs" ∉ factNames (get_system_info Platform.macos env v fmt) ∧
      "cpus" ∉ factNames (get_system_info Platform.macos env v fmt)) ∧
    (env.memsize = none →
      "Memory Size" ∉ factNames (get_system_info Platform.macos env v fmt) ∧
      "memory_bytes" ∉ factNames (get_system_info Platform.macos env v fmt)) ∧
    (env.cpu_brand = none →
      "CPU" ∉ factNames (get_system_info Platform.macos env v fmt)) ∧
    (env.computer_name = none →
      "Computer Name" ∉ factNames
        (get_system_info Platform.windows env v OutputFormat.Text) ∧
      Line.jsonEntry "computer_name" "\"Unknown\"" false
        ∈ get_system_info Platform.windows env v OutputFormat.Json) ∧
    runMain Platform.linux env ⟨v, fmt⟩ = Except.ok (mainLines Platform.linux env ⟨v, fmt⟩) := by
  obtain ⟨si, cn, ci, mi, hn, nc, ms, cb, osn, ar⟩ := env
  refine ⟨?_, ?_, ?_, ?_, ?_, ?_, ?_, rfl⟩
  · rintro rfl
    cases fmt <;> cases mi <;> cases hn <;> cases v <;>
      simp [get_system_info, linuxText, linuxJson, factNames, Line.factKey,
        List.filterMap_cons, List.filterMap_append, factNames_take_map_rawFact,
        factNames_map_rawFact]
  · rintro rfl
    cases fmt <;> cases ci <;> cases hn <;> cases v <;>
      simp [get_system_info, linuxText, linuxJson, Line.isRawFact,
        List.filter_append, List.filter_cons]
  · rintro rfl
    cases fmt <;> cases ci <;> cases mi <;> cases v <;>
      simp [get_system_info, linuxText, linuxJson, factNames, Line.factKey,
        List.filterMap_cons, List.filterMap_append, factNames_take_map_rawFact,
        factNames_map_rawFact]
  · rintro rfl
    cases fmt <;> cases ms <;> cases cb <;> cases v <;>
      simp [get_system_info, macosText, macosJson, factNames, Line.factKey,
        List.filterMap_cons, List.filterMap_append]
  · rintro rfl
    cases fmt <;> cases nc <;> cases cb <;> cases v <;>
      simp [get_system_info, macosText, macosJson, factNames, Line.factKey,
        List.filterMap_cons, List.filterMap_append]
  · rintro rfl
    cases fmt <;> cases nc <;> cases ms <;> cases v <;>
      simp [get_system_info, macosText, macosJson, factNames, Line.factKey,
        List.filterMap_cons, List.filterMap_append]
  · rintro rfl
    refine ⟨?_, ?_⟩
    · cases v <;>
        simp [get_system_info, windowsText, factNames, Line.factKey,
          List.filterMap_cons, List.filterMap_append]
    · simp [get_system_info, windowsJson]

/-- C7 counterexample: on linux in Text format, an environment where the
only successful query is a /proc/meminfo read returning empty contents
has a successful underlying query and yet an empty fact sequence. -/
theorem successful_query_empty_facts_counterexample :
    envMemEmpty.meminfo.isSome = true ∧
    factsOf (get_system_info Platform.linux envMemEmpty false
      OutputFormat.Text) = [] := by
  refine ⟨rfl, ?_⟩
  decide

/-- C7 as amended: the windows variant always collects facts, the linux
and macos Json branches always collect facts (the platform fact), and in
Text format the fact sequence is non-empty whenever a query made by the
active branch succeeds — with the proviso that a successful linux
meminfo read contributes facts only when its contents have at least one
line. -/
theorem collect_nonempty_when_query_succeeds (env : Env) (v : Bool)
    (fmt : OutputFormat) :
    factsOf (get_system_info Platform.windows env v fmt) ≠ [] ∧
    factsOf (get_system_info Platform.linux env v OutputFormat.Json) ≠ [] ∧
    factsOf (get_system_info Platform.macos env v OutputFormat.Json) ≠ [] ∧
    ((env.cpuinfo.isSome = true ∨ env.hostname.isSome = true ∨
        (∃ m, env.meminfo = some m ∧ rustLines m ≠ [])) →
      factsOf (get_system_info Platform.linux env v OutputFormat.Text) ≠ []) ∧
    ((env.ncpu.isSome = true ∨ env.memsize.isSome = true ∨
        (v = true ∧ env.cpu_brand.isSome = true)) →
      factsOf (get_system_info Platform.macos env v OutputFormat.Text) ≠ []) := by
  obtain ⟨si, cn, ci, mi, hn, nc, ms, cb, osn, ar⟩ := env
  refine ⟨?_, ?_, ?_, ?_, ?_⟩
  · cases fmt <;> cases v <;> cases cn <;>
      simp [get_system_info, windowsJson, windowsText, factsOf,
        List.filter_append, List.filter_cons, Line.isFact]
  · cases ci <;> cases hn <;>
      simp [get_system_info, linuxJson, factsOf,
        List.filter_append, List.filter_cons, Line.isFact]
  · cases nc <;> cases ms <;>
      simp [get_system_info, macosJson, factsOf,
        List.filter_append, List.filter_cons, Line.isFact]
  · rintro (hci | hhn | ⟨m, rfl, hm⟩)
    · obtain ⟨c, rfl⟩ := Option.isSome_iff_exists.mp hci
      cases mi <;> cases hn <;> cases v <;>
        simp [get_system_info, linuxText, factsOf,
          List.filter_append, List.filter_cons, Line.isFact]
    · obtain ⟨h, rfl⟩ := Option.isSome_iff_exists.mp hhn
      cases ci <;> cases mi <;> cases v <;>
        simp [get_system_info, linuxText, factsOf,
          List.filter_append, List.filter_cons, Line.isFact]
    · cases ci <;> cases hn <;> cases v <;>
        simp [get_system_info, linuxText, factsOf,
          List.filter_append, List.filter_cons, Line.isFact,
          filter_isFact_take_map_rawFact, List.take_eq_nil_iff,
          List.map_eq_nil_iff, hm]
  · rintro (hnc | hms | ⟨rfl, hcb⟩)
    · obtain ⟨s, rfl⟩ := Option.isSome_iff_exists.mp hnc
      cases ms <;> cases cb <;> cases v <;>
        simp [get_system_info, macosText, factsOf,
          List.filter_append, List.filter_cons, Line.isFact]
    · obtain ⟨s, rfl⟩ := Option.isSome_iff_exists.mp hms
      cases nc <;> cases cb <;> cases v <;>
        simp [get_system_info, macosText, factsOf,
          List.filter_append, List.filter_cons, Line.isFact]
    · obtain ⟨s, rfl⟩ := Option.isSome_iff_exists.mp hcb
      cases nc <;> cases ms <;>
        simp [get_system_info, macosText, factsOf,
          List.filter_append, List.filter_cons, Line.isFact]
